import Mathlib

/-
Shallow embedding of src/basic-agent.py (the ExternalDataFetcher layer).

The two tool functions `get_weather_for_location` and `search_tourist_spots`
and the shared helper `geocode_city_open_meteo` are modelled as pure Lean
functions.  Each blocking HTTP call is represented by an `HttpResult`
argument: either the call failed (network error, timeout, non-2xx status
from `raise_for_status`, or a JSON decode error in `.json()` — all of which
raise through the same caught path) or it succeeded with a parsed JSON body.

Python dynamic-typing faults (`AttributeError`, `TypeError`, `KeyError`,
`IndexError`) that the source can raise while reshaping a response are
modelled as `Except` errors; an `Except.error` escaping a tool function
models an uncaught exception propagating out of it.  Each function also
returns the list of HTTP requests it issued (with their query parameters),
so that "no request was issued" claims are expressible.
-/

set_option autoImplicit false

namespace BasicAgent

/-- JSON values, as produced by `resp.json()`.  Numbers are rationals
(JSON numbers are decimal literals; the program never computes with them,
it only moves them around). -/
inductive Json where
  | null
  | bool (b : Bool)
  | num (q : Rat)
  | str (s : String)
  | arr (elems : List Json)
  | obj (fields : List (String × Json))

/-- Outcome of one blocking `requests.get(...)` call followed by
`raise_for_status()` and `.json()`: either some exception was raised on the
way (network/timeout/HTTP-status/JSON-decode), carrying a message, or a
parsed JSON body was obtained. -/
inductive HttpResult where
  | failure (msg : String)
  | success (body : Json)

/-- A Python exception value, as raised by the reshaping code. -/
inductive PyExc where
  | transport (msg : String)
  | valueError (msg : String)
  | attributeError (msg : String)
  | typeError (msg : String)
  | keyError (msg : String)
  | indexError (msg : String)

/-- The message text of an exception, as interpolated by an f-string. -/
def excMsg : PyExc → String
  | .transport m => m
  | .valueError m => m
  | .attributeError m => m
  | .typeError m => m
  | .keyError m => m
  | .indexError m => m

/-- An HTTP request issued by the program, tagged with the endpoint and the
query parameters passed to `requests.get`. -/
inductive Req where
  | geocoding (params : List (String × Json))
  | forecast (params : List (String × Json))
  | places (params : List (String × Json))

/-- First binding of a key in an association list (Python dicts built by
`json.loads` have unique keys, so first-wins agrees with the dict). -/
def jlookup : List (String × Json) → String → Option Json
  | [], _ => none
  | (k, v) :: rest, key => if k = key then some v else jlookup rest key

/-- Lookup with a default, the semantics of `d.get(key, default)` on a dict. -/
def jlookupD (kvs : List (String × Json)) (key : String) (dflt : Json) : Json :=
  match jlookup kvs key with
  | some v => v
  | none => dflt

/-- Python truthiness of a JSON value (`if not x`). -/
def pyFalsy : Json → Bool
  | .null => true
  | .bool b => !b
  | .num q => q = 0
  | .str s => s = ""
  | .arr [] => true
  | .arr (_ :: _) => false
  | .obj [] => true
  | .obj (_ :: _) => false

/-- `v.get(key, dflt)`: works on dicts, raises `AttributeError` on any other
JSON value (list, string, number, bool, None). -/
def pyGetD (v : Json) (key : String) (dflt : Json) : Except PyExc Json :=
  match v with
  | .obj kvs => .ok (jlookupD kvs key dflt)
  | _ => .error (.attributeError ("object has no attribute get: " ++ key))

/-- `v[key]` with a string key: dict lookup (raising `KeyError` when the key
is absent); on lists and strings a string index is a `TypeError`; on other
values subscripting is a `TypeError`. -/
def pySubscriptStr (v : Json) (key : String) : Except PyExc Json :=
  match v with
  | .obj kvs =>
    match jlookup kvs key with
    | some x => .ok x
    | none => .error (.keyError key)
  | _ => .error (.typeError ("value is not subscriptable by string: " ++ key))

/-- `v[i]` with a non-negative integer index: list indexing (raising
`IndexError` out of range), string indexing yielding a one-character string,
`KeyError` on dicts (whose JSON keys are strings, never equal to an int),
`TypeError` otherwise. -/
def pySubscriptNat (v : Json) (i : Nat) : Except PyExc Json :=
  match v with
  | .arr xs =>
    match xs.get? i with
    | some x => .ok x
    | none => .error (.indexError "list index out of range")
  | .str s =>
    match s.toList.get? i with
    | some c => .ok (.str c.toString)
    | none => .error (.indexError "string index out of range")
  | .obj _ => .error (.keyError "integer key")
  | _ => .error (.typeError "value is not subscriptable")

/-- `len(v)`: defined on lists, strings and dicts, `TypeError` otherwise. -/
def pyLen (v : Json) : Except PyExc Nat :=
  match v with
  | .arr xs => .ok xs.length
  | .str s => .ok s.length
  | .obj kvs => .ok kvs.length
  | _ => .error (.typeError "object has no len")

/-- Iterating a value (`for x in v` / `enumerate(v)`): lists yield their
elements, strings their characters, dicts their keys; other values raise
`TypeError`. -/
def pyIter (v : Json) : Except PyExc (List Json) :=
  match v with
  | .arr xs => .ok xs
  | .str s => .ok (s.toList.map (fun c => .str c.toString))
  | .obj kvs => .ok (kvs.map (fun kv => .str kv.1))
  | _ => .error (.typeError "object is not iterable")

/-- The query parameters of the geocoding request (source lines 19-24). -/
def geo_params (city : String) : List (String × Json) :=
  [("name", .str city), ("count", .num 1), ("language", .str "en"),
   ("format", .str "json")]

/-- `geocode_city_open_meteo(city)` (source lines 13-39): issue the geocoding
request; on any transport/decode failure the exception propagates to the
caller; with a body, `data.get("results")` is tested for truthiness, an empty
result set raises `ValueError`, and otherwise the first result record yields
`(lat, lon, resolved_name, country)`.  Returns the outcome paired with the
requests issued (always exactly the one geocoding request). -/
def geocode_city_open_meteo (city : String) (resp : HttpResult) :
    Except PyExc (Json × Json × Json × Json) × List Req :=
  (match resp with
   | .failure msg => .error (.transport msg)
   | .success data =>
     match pyGetD data "results" Json.null with
     | .error e => .error e
     | .ok results =>
       if pyFalsy results then
         .error (.valueError ("City not found: " ++ city))
       else
         match pySubscriptStr data "results" with
         | .error e => .error e
         | .ok rs =>
           match pySubscriptNat rs 0 with
           | .error e => .error e
           | .ok first =>
             match pySubscriptStr first "latitude" with
             | .error e => .error e
             | .ok lat =>
               match pySubscriptStr first "longitude" with
               | .error e => .error e
               | .ok lon =>
                 match pyGetD first "name" (Json.str city) with
                 | .error e => .error e
                 | .ok resolved_name =>
                   match pyGetD first "country" (Json.str "") with
                   | .error e => .error e
                   | .ok country => .ok (lat, lon, resolved_name, country),
   [Req.geocoding (geo_params city)])

/-- The query parameters of the forecast request (source lines 72-83); the
`daily` field is the comma-join of the four requested series. -/
def forecast_params (lat lon : Json) : List (String × Json) :=
  [("latitude", lat), ("longitude", lon),
   ("daily", .str "temperature_2m_max,temperature_2m_min,precipitation_probability_max,precipitation_sum"),
   ("forecast_days", .num 15), ("timezone", .str "auto")]

/-- The notes string of a successful weather result (source lines 127-130). -/
def weatherNotes : String :=
  "Forecast from Open-Meteo: 15 days of daily max/min temperature, max precipitation probability, and precipitation sum."

/-- The guarded element access `series[i] if i < len(series) else None` used
for each value field of a day entry (source lines 112-115). -/
def condIndex (series : Json) (i : Nat) : Except PyExc Json :=
  match pyLen series with
  | .error e => .error e
  | .ok n => if i < n then pySubscriptNat series i else .ok Json.null

/-- One iteration of the day-building loop (source lines 110-116): each value
field is `series[i] if i < len(series) else None`; `len` is evaluated first,
so a non-sized series raises before the guard. -/
def dayEntry (t_max t_min pop_max precip_sum : Json) (i : Nat) (date : Json) :
    Except PyExc Json :=
  match condIndex t_max i with
  | .error e => .error e
  | .ok a =>
    match condIndex t_min i with
    | .error e => .error e
    | .ok b =>
      match condIndex pop_max i with
      | .error e => .error e
      | .ok c =>
        match condIndex precip_sum i with
        | .error e => .error e
        | .ok d =>
          .ok (.obj [("date", date), ("temp_max_c", a), ("temp_min_c", b),
                     ("precipitation_probability_max", c),
                     ("precipitation_sum_mm", d)])

/-- The loop `for i, date in enumerate(dates)` (source lines 108-116),
accumulating one entry per date, threading the running index. -/
def buildDays (t_max t_min pop_max precip_sum : Json) :
    Nat → List Json → Except PyExc (List Json)
  | _, [] => .ok []
  | i, d :: rest =>
    match dayEntry t_max t_min pop_max precip_sum i d with
    | .error e => .error e
    | .ok entry =>
      match buildDays t_max t_min pop_max precip_sum (i + 1) rest with
      | .error e => .error e
      | .ok entries => .ok (entry :: entries)

/-- The reshaping of a decoded forecast body (source lines 94-133): pull the
`daily` dict and its five series with `.get` defaults, return the no-data
error record when `dates` is falsy, otherwise build the per-day list and the
final result record. -/
def weatherBody (resolved_name country lat lon : Json) (f_data : Json) :
    Except PyExc Json :=
  match pyGetD f_data "daily" (Json.obj []) with
  | .error e => .error e
  | .ok daily =>
    match pyGetD daily "time" (Json.arr []) with
    | .error e => .error e
    | .ok dates =>
      match pyGetD daily "temperature_2m_max" (Json.arr []) with
      | .error e => .error e
      | .ok t_max =>
        match pyGetD daily "temperature_2m_min" (Json.arr []) with
        | .error e => .error e
        | .ok t_min =>
          match pyGetD daily "precipitation_probability_max" (Json.arr []) with
          | .error e => .error e
          | .ok pop_max =>
            match pyGetD daily "precipitation_sum" (Json.arr []) with
            | .error e => .error e
            | .ok precip_sum =>
              if pyFalsy dates then
                .ok (.obj [("error", .str "No daily forecast data returned."),
                           ("city", resolved_name), ("country", country)])
              else
                match pyIter dates with
                | .error e => .error e
                | .ok ds =>
                  match buildDays t_max t_min pop_max precip_sum 0 ds with
                  | .error e => .error e
                  | .ok days =>
                    .ok (.obj [("city", resolved_name), ("country", country),
                               ("latitude", lat), ("longitude", lon),
                               ("days", .arr days),
                               ("notes", .str weatherNotes)])

/-- `get_weather_for_location(city)` (source lines 45-133).  A geocoding
failure of any kind is caught and returned as an error record; a forecast
transport failure likewise; a decoded forecast body is reshaped by
`weatherBody`, whose dynamic-typing exceptions are NOT caught (the reshaping
sits outside the `try` block).  Also returns the requests issued. -/
def get_weather_for_location (city : String) (geoResp forecastResp : HttpResult) :
    Except PyExc Json × List Req :=
  match geocode_city_open_meteo city geoResp with
  | (.error e, log) =>
    (.ok (.obj [("error",
        .str ("Failed to geocode city " ++ city ++ ": " ++ excMsg e))]), log)
  | (.ok (lat, lon, resolved_name, country), log) =>
    let log := log ++ [Req.forecast (forecast_params lat lon)]
    match forecastResp with
    | .failure msg =>
      (.ok (.obj [("error",
          .str ("Failed to fetch weather forecast for " ++ city ++ ": " ++ msg))]), log)
    | .success f_data =>
      (weatherBody resolved_name country lat lon f_data, log)

/-- The query parameters of the points-of-interest request (source lines
170-181); note `limit` is 20 and `radius` is 15000. -/
def places_params (lat lon : Json) (api_key : String) : List (String × Json) :=
  [("radius", .num 15000), ("lon", lon), ("lat", lat),
   ("kinds", .str "tourist_facilities,interesting_places,cultural,historic,architecture,natural"),
   ("limit", .num 20), ("rate", .num 2), ("format", .str "json"),
   ("apikey", .str api_key)]

/-- The notes string of a successful attractions result (source lines 211-214). -/
def spotsNotes : String :=
  "Attractions from OpenTripMap within ~15km radius. Use name + kinds for itinerary planning."

/-- One iteration of the attraction-building loop (source lines 194-200):
five `item.get(...)` calls (default `None`), each raising `AttributeError`
when `item` is not a dict. -/
def mkAttraction (item : Json) : Except PyExc Json :=
  match pyGetD item "name" Json.null with
  | .error e => .error e
  | .ok nm =>
    match pyGetD item "kinds" Json.null with
    | .error e => .error e
    | .ok kinds =>
      match pyGetD item "dist" Json.null with
      | .error e => .error e
      | .ok dist =>
        match pyGetD item "osm" Json.null with
        | .error e => .error e
        | .ok osm =>
          match pyGetD item "xid" Json.null with
          | .error e => .error e
          | .ok xid =>
            .ok (.obj [("name", nm), ("kinds", kinds), ("dist_m", dist),
                       ("osm", osm), ("xid", xid)])

/-- The loop `for item in p_data` (source lines 192-200) over the already
obtained iterator elements. -/
def buildAttractions : List Json → Except PyExc (List Json)
  | [] => .ok []
  | item :: rest =>
    match mkAttraction item with
    | .error e => .error e
    | .ok a =>
      match buildAttractions rest with
      | .error e => .error e
      | .ok rest2 => .ok (a :: rest2)

/-- The reshaping of a decoded places body (source lines 192-217): iterate the
body, project each item, and build the final result record.  Dynamic-typing
exceptions are NOT caught here (the loop sits outside the `try` block). -/
def spotsBody (resolved_name country lat lon : Json) (p_data : Json) :
    Except PyExc Json :=
  match pyIter p_data with
  | .error e => .error e
  | .ok items =>
    match buildAttractions items with
    | .error e => .error e
    | .ok attractions =>
      .ok (.obj [("city", resolved_name), ("country", country),
                 ("latitude", lat), ("longitude", lon),
                 ("attractions", .arr attractions),
                 ("notes", .str spotsNotes)])

/-- The record returned when `OPEN_TRIPMAP_API_KEY` is unset or empty
(source lines 154-157). -/
def missingKeyRecord : Json :=
  .obj [("error", .str "OPEN_TRIPMAP_API_KEY is not set in environment.")]

/-- `search_tourist_spots(city)` (source lines 139-217).  `api_key` models
`os.getenv("OPEN_TRIPMAP_API_KEY")` (`none` when unset); `if not api_key`
rejects both an unset and an empty key before anything else happens.  Then
geocode (errors caught into an error record), then the places request
(transport errors caught), then reshape via `spotsBody`.  Also returns the
requests issued. -/
def search_tourist_spots (city : String) (api_key : Option String)
    (geoResp placesResp : HttpResult) : Except PyExc Json × List Req :=
  match api_key with
  | none => (.ok missingKeyRecord, [])
  | some key =>
    if key = "" then (.ok missingKeyRecord, [])
    else
      match geocode_city_open_meteo city geoResp with
      | (.error e, log) =>
        (.ok (.obj [("error",
            .str ("Failed to geocode city " ++ city ++ ": " ++ excMsg e))]), log)
      | (.ok (lat, lon, resolved_name, country), log) =>
        let log := log ++ [Req.places (places_params lat lon key)]
        match placesResp with
        | .failure msg =>
          (.ok (.obj [("error",
              .str ("Failed to fetch tourist spots for " ++ city ++ ": " ++ msg))]), log)
        | .success p_data =>
          (spotsBody resolved_name country lat lon p_data, log)

/-! ### Derived pure forms and observers (proof-side, not part of the source) -/

/-- `series[i]` when in range, `None` otherwise — the value `condIndex`
yields on a list series. -/
def fieldAt (xs : List Json) (i : Nat) : Json := xs.getD i Json.null

/-- The day entry built at index `i` when all four series are lists. -/
def mkDayP (tm tn pm ps : List Json) (i : Nat) (date : Json) : Json :=
  .obj [("date", date), ("temp_max_c", fieldAt tm i),
        ("temp_min_c", fieldAt tn i),
        ("precipitation_probability_max", fieldAt pm i),
        ("precipitation_sum_mm", fieldAt ps i)]

/-- Pure form of `buildDays` when all four series are lists. -/
def buildDaysP (tm tn pm ps : List Json) : Nat → List Json → List Json
  | _, [] => []
  | i, d :: rest => mkDayP tm tn pm ps i d :: buildDaysP tm tn pm ps (i + 1) rest

/-- The attraction record built from a dict item. -/
def mkAttractionP (kvs : List (String × Json)) : Json :=
  .obj [("name", jlookupD kvs "name" Json.null),
        ("kinds", jlookupD kvs "kinds" Json.null),
        ("dist_m", jlookupD kvs "dist" Json.null),
        ("osm", jlookupD kvs "osm" Json.null),
        ("xid", jlookupD kvs "xid" Json.null)]

/-- Whether a tool outcome is a normal return of a JSON object (the dumped
record); `false` both for a propagating exception and for a non-object
return (the latter never occurs). -/
def isOkObj : Except PyExc Json → Bool
  | .ok (.obj _) => true
  | _ => false

/-- Is a JSON value an object? -/
def isObj : Json → Bool
  | .obj _ => true
  | _ => false

/-- Lookup a key inside a returned record. -/
def jfield (v : Json) (key : String) : Option Json :=
  match v with
  | .obj kvs => jlookup kvs key
  | _ => none

/-- Observe the `days` array of a weather tool outcome. -/
def weatherDays (r : Except PyExc Json × List Req) : Option (List Json) :=
  match r.1 with
  | .ok v =>
    match jfield v "days" with
    | some (.arr xs) => some xs
    | _ => none
  | .error _ => none

/-- Observe the `attractions` array of a spots tool outcome. -/
def attractionsList (r : Except PyExc Json × List Req) : Option (List Json) :=
  match r.1 with
  | .ok v =>
    match jfield v "attractions" with
    | some (.arr xs) => some xs
    | _ => none
  | .error _ => none

/-- Is an optional JSON value absent or a list?  (Well-formedness of one
daily series slot.) -/
def isArrOpt : Option Json → Bool
  | none => true
  | some (.arr _) => true
  | some _ => false

/-- Well-formedness of a decoded forecast body, the shape the reshaping code
assumes: an object whose `daily` member, when present, is an object whose
`time` and four value series, when present, are lists. -/
def forecastWF : Json → Bool
  | .obj fkvs =>
    match jlookup fkvs "daily" with
    | none => true
    | some (.obj dkvs) =>
      isArrOpt (jlookup dkvs "time") &&
      isArrOpt (jlookup dkvs "temperature_2m_max") &&
      isArrOpt (jlookup dkvs "temperature_2m_min") &&
      isArrOpt (jlookup dkvs "precipitation_probability_max") &&
      isArrOpt (jlookup dkvs "precipitation_sum")
    | some _ => false
  | _ => false

/-- Well-formedness of a decoded places body: a list of objects. -/
def placesWF : Json → Bool
  | .arr items => items.all isObj
  | _ => false

/-! ### Support lemmas -/

theorem condIndex_arr (xs : List Json) (i : Nat) :
    condIndex (Json.arr xs) i = .ok (fieldAt xs i) := by
  simp only [condIndex, pyLen, fieldAt]
  by_cases h : i < xs.length
  · rw [if_pos h]
    simp only [pySubscriptNat]
    rw [List.getD_eq_get?]
    cases hg : xs.get? i with
    | none => exact absurd (List.get?_eq_none.mp hg) (by omega)
    | some x => rfl
  · rw [if_neg h]
    rw [List.getD_eq_get?, List.get?_eq_none.mpr (by omega)]
    rfl

theorem dayEntry_arr (tm tn pm ps : List Json) (i : Nat) (d : Json) :
    dayEntry (.arr tm) (.arr tn) (.arr pm) (.arr ps) i d =
      .ok (mkDayP tm tn pm ps i d) := by
  simp only [dayEntry, condIndex_arr, mkDayP]

theorem buildDays_arr (tm tn pm ps : List Json) :
    ∀ (ds : List Json) (i : Nat),
      buildDays (.arr tm) (.arr tn) (.arr pm) (.arr ps) i ds =
        .ok (buildDaysP tm tn pm ps i ds)
  | [], _ => rfl
  | d :: rest, i => by
    simp only [buildDays, buildDaysP, dayEntry_arr,
      buildDays_arr tm tn pm ps rest (i + 1)]

theorem buildDaysP_length (tm tn pm ps : List Json) :
    ∀ (ds : List Json) (i : Nat),
      (buildDaysP tm tn pm ps i ds).length = ds.length
  | [], _ => rfl
  | _ :: rest, i => by
    simp only [buildDaysP, List.length_cons, buildDaysP_length tm tn pm ps rest (i + 1)]

theorem buildDaysP_getD (tm tn pm ps : List Json) :
    ∀ (ds : List Json) (i j : Nat), j < ds.length →
      (buildDaysP tm tn pm ps i ds).getD j Json.null =
        mkDayP tm tn pm ps (i + j) (ds.getD j Json.null)
  | [], _, j, hj => absurd hj (by simp)
  | d :: rest, i, 0, _ => by simp [buildDaysP]
  | d :: rest, i, j + 1, hj => by
    have ih := buildDaysP_getD tm tn pm ps rest (i + 1) j
      (by simpa using Nat.lt_of_succ_lt_succ hj)
    simp only [buildDaysP, List.getD_cons_succ, ih]
    ring_nf

/-- With `"daily"` present as an object whose series are lists (or absent,
defaulting), every step of the forecast reshaping succeeds and the success
record is exactly the one built from `buildDaysP`. -/
theorem get_weather_success (city : String) (geoResp : HttpResult)
    (lat lon nm co : Json) (fkvs dkvs : List (String × Json))
    (ds tm tn pm ps : List Json)
    (hg : (geocode_city_open_meteo city geoResp).1 = .ok (lat, lon, nm, co))
    (hdaily : jlookupD fkvs "daily" (Json.obj []) = Json.obj dkvs)
    (htime : jlookupD dkvs "time" (Json.arr []) = Json.arr ds)
    (htm : jlookupD dkvs "temperature_2m_max" (Json.arr []) = Json.arr tm)
    (htn : jlookupD dkvs "temperature_2m_min" (Json.arr []) = Json.arr tn)
    (hpm : jlookupD dkvs "precipitation_probability_max" (Json.arr []) = Json.arr pm)
    (hps : jlookupD dkvs "precipitation_sum" (Json.arr []) = Json.arr ps)
    (hne : ds ≠ []) :
    get_weather_for_location city geoResp (.success (Json.obj fkvs)) =
      (.ok (.obj [("city", nm), ("country", co), ("latitude", lat),
                  ("longitude", lon),
                  ("days", .arr (buildDaysP tm tn pm ps 0 ds)),
                  ("notes", .str weatherNotes)]),
       [Req.geocoding (geo_params city), Req.forecast (forecast_params lat lon)]) := by
  have hlog : (geocode_city_open_meteo city geoResp).2 =
      [Req.geocoding (geo_params city)] := rfl
  have hpair : geocode_city_open_meteo city geoResp =
      (.ok (lat, lon, nm, co), [Req.geocoding (geo_params city)]) := by
    rw [← hg, ← hlog]
  simp only [get_weather_for_location, hpair, weatherBody, pyGetD,
    hdaily, htime, htm, htn, hpm, hps]
  obtain ⟨d, ds', rfl⟩ : ∃ d ds', ds = d :: ds' := by
    cases ds with
    | nil => exact absurd rfl hne
    | cons d ds' => exact ⟨d, ds', rfl⟩
  simp only [pyFalsy, Bool.false_eq_true, if_false, pyIter, buildDays_arr]
  rfl

theorem isArrOpt_getD (kvs : List (String × Json)) (key : String)
    (h : isArrOpt (jlookup kvs key) = true) :
    ∃ xs, jlookupD kvs key (Json.arr []) = Json.arr xs := by
  unfold jlookupD
  cases hl : jlookup kvs key with
  | none => exact ⟨[], rfl⟩
  | some v =>
    cases v with
    | arr xs => exact ⟨xs, rfl⟩
    | null => rw [hl] at h; exact absurd h (by simp [isArrOpt])
    | bool b => rw [hl] at h; exact absurd h (by simp [isArrOpt])
    | num q => rw [hl] at h; exact absurd h (by simp [isArrOpt])
    | str s => rw [hl] at h; exact absurd h (by simp [isArrOpt])
    | obj o => rw [hl] at h; exact absurd h (by simp [isArrOpt])

theorem weatherBody_wf (nm co lat lon : Json) (f_data : Json)
    (h : forecastWF f_data = true) :
    isOkObj (weatherBody nm co lat lon f_data) = true := by
  cases f_data with
  | obj fkvs =>
    simp only [forecastWF] at h
    cases hd : jlookup fkvs "daily" with
    | none =>
      simp [weatherBody, pyGetD, jlookupD, hd, jlookup, pyFalsy, isOkObj]
    | some v =>
      rw [hd] at h
      cases v with
      | obj dkvs =>
        have hdaily : jlookupD fkvs "daily" (Json.obj []) = Json.obj dkvs := by
          simp [jlookupD, hd]
        simp only [Bool.and_eq_true] at h
        obtain ⟨⟨⟨⟨h1, h2⟩, h3⟩, h4⟩, h5⟩ := h
        obtain ⟨ds, hds⟩ := isArrOpt_getD dkvs "time" h1
        obtain ⟨tm, htm⟩ := isArrOpt_getD dkvs "temperature_2m_max" h2
        obtain ⟨tn, htn⟩ := isArrOpt_getD dkvs "temperature_2m_min" h3
        obtain ⟨pm, hpm⟩ := isArrOpt_getD dkvs "precipitation_probability_max" h4
        obtain ⟨ps, hps⟩ := isArrOpt_getD dkvs "precipitation_sum" h5
        simp only [weatherBody, pyGetD, hdaily, hds, htm, htn, hpm, hps]
        cases ds with
        | nil => simp [pyFalsy, isOkObj]
        | cons d ds' =>
          simp [pyFalsy, pyIter, buildDays_arr, isOkObj]
      | null => exact absurd h (by simp)
      | bool b => exact absurd h (by simp)
      | num q => exact absurd h (by simp)
      | str s => exact absurd h (by simp)
      | arr xs => exact absurd h (by simp)
  | null => exact absurd h (by simp [forecastWF])
  | bool b => exact absurd h (by simp [forecastWF])
  | num q => exact absurd h (by simp [forecastWF])
  | str s => exact absurd h (by simp [forecastWF])
  | arr xs => exact absurd h (by simp [forecastWF])

/-- Total projection of one place record: on a dict it is the attraction
record the loop body builds; never applied elsewhere. -/
def attractionOf : Json → Json
  | .obj kvs => mkAttractionP kvs
  | _ => Json.null

theorem mkAttraction_obj (kvs : List (String × Json)) :
    mkAttraction (.obj kvs) = .ok (mkAttractionP kvs) := rfl

theorem buildAttractions_all :
    ∀ (items : List Json), items.all isObj = true →
      buildAttractions items = .ok (items.map attractionOf)
  | [], _ => rfl
  | item :: rest, h => by
    simp only [List.all_cons, Bool.and_eq_true] at h
    obtain ⟨h1, h2⟩ := h
    obtain ⟨kvs, rfl⟩ : ∃ kvs, item = Json.obj kvs := by
      cases item with
      | obj kvs => exact ⟨kvs, rfl⟩
      | null => exact absurd h1 (by simp [isObj])
      | bool b => exact absurd h1 (by simp [isObj])
      | num q => exact absurd h1 (by simp [isObj])
      | str s => exact absurd h1 (by simp [isObj])
      | arr xs => exact absurd h1 (by simp [isObj])
    simp only [buildAttractions, mkAttraction_obj,
      buildAttractions_all rest h2, List.map_cons, attractionOf]

/-- With a places body that is a list of objects, the reshaping succeeds and
the success record is exactly the one built by mapping `attractionOf`. -/
theorem spots_success (city : String) (geoResp : HttpResult) (key : String)
    (lat lon nm co : Json) (items : List Json)
    (hk : key ≠ "")
    (hg : (geocode_city_open_meteo city geoResp).1 = .ok (lat, lon, nm, co))
    (hall : items.all isObj = true) :
    search_tourist_spots city (some key) geoResp (.success (Json.arr items)) =
      (.ok (.obj [("city", nm), ("country", co), ("latitude", lat),
                  ("longitude", lon),
                  ("attractions", .arr (items.map attractionOf)),
                  ("notes", .str spotsNotes)]),
       [Req.geocoding (geo_params city), Req.places (places_params lat lon key)]) := by
  have hlog : (geocode_city_open_meteo city geoResp).2 =
      [Req.geocoding (geo_params city)] := rfl
  have hpair : geocode_city_open_meteo city geoResp =
      (.ok (lat, lon, nm, co), [Req.geocoding (geo_params city)]) := by
    rw [← hg, ← hlog]
  simp only [search_tourist_spots, hpair, if_neg hk, spotsBody, pyIter,
    buildAttractions_all items hall]
  rfl

theorem spotsBody_wf (nm co lat lon : Json) (p_data : Json)
    (h : placesWF p_data = true) :
    isOkObj (spotsBody nm co lat lon p_data) = true := by
  cases p_data with
  | arr items =>
    simp only [placesWF] at h
    simp [spotsBody, pyIter, buildAttractions_all items h, isOkObj]
  | null => exact absurd h (by simp [placesWF])
  | bool b => exact absurd h (by simp [placesWF])
  | num q => exact absurd h (by simp [placesWF])
  | str s => exact absurd h (by simp [placesWF])
  | obj kvs => exact absurd h (by simp [placesWF])

/-- Observe the `error` field of a tool outcome. -/
def errorField (r : Except PyExc Json × List Req) : Option Json :=
  match r.1 with
  | .ok v => jfield v "error"
  | .error _ => none

/-! ### Concrete fixtures for witnesses and counterexamples -/

/-- A geocoding success body with one match (Rome). -/
def geoRome : Json :=
  .obj [("results", .arr [ .obj [("latitude", .num 41), ("longitude", .num 12),
    ("name", .str "Rome"), ("country", .str "Italy")] ])]

/-- A geocoding success body with an empty match list. -/
def geoEmpty : Json := .obj [("results", .arr [])]

/-- The fields of a forecast body whose `daily.time` has a single date. -/
def fOneKvs : List (String × Json) :=
  [("daily", .obj [("time", .arr [.str "2025-06-01"]),
     ("temperature_2m_max", .arr [.num 20]),
     ("temperature_2m_min", .arr [.num 10]),
     ("precipitation_probability_max", .arr [.num 5]),
     ("precipitation_sum", .arr [.num 0])])]

/-- The daily dict of `fOneKvs`. -/
def dOneKvs : List (String × Json) :=
  [("time", .arr [.str "2025-06-01"]),
   ("temperature_2m_max", .arr [.num 20]),
   ("temperature_2m_min", .arr [.num 10]),
   ("precipitation_probability_max", .arr [.num 5]),
   ("precipitation_sum", .arr [.num 0])]

/-- The daily dict of a forecast body with two dates but value series of
lengths 1, 0, 2 and 0 — shorter than the date list. -/
def dTwoKvs : List (String × Json) :=
  [("time", .arr [.str "2025-06-01", .str "2025-06-02"]),
   ("temperature_2m_max", .arr [.num 20]),
   ("temperature_2m_min", .arr []),
   ("precipitation_probability_max", .arr [.num 5, .num 7]),
   ("precipitation_sum", .arr [])]

/-- The fields of the forecast body built over `dTwoKvs`. -/
def fTwoKvs : List (String × Json) := [("daily", .obj dTwoKvs)]

/-! ### Claims -/

/-- Claim C1, counterexample: the claim quantifies over every provider
response, but when the forecast endpoint answers 200 with the JSON body `[]`
(a list, not an object), the reshaping line `f_data.get("daily", {})` sits
outside the `try` block and raises an uncaught `AttributeError`: the tool
does not return a JSON string at all. -/
theorem weather_fault_cex :
    (get_weather_for_location "Rome" (.success geoRome) (.success (.arr []))).1 =
      .error (.attributeError "object has no attribute get: daily") := rfl

/-- Claim C1 (amended): for every provider failure, and for every provider
success whose decoded body has the shape the reshaping code assumes (the
forecast body an object whose `daily` member, when present, is an object with
list-valued series; the places body a list of objects), both tool functions
return normally with a JSON-object record — every caught error is embedded as
a string in that record and nothing propagates.  For success bodies outside
that shape a dynamic-typing exception can propagate (see the
counterexample). -/
theorem tools_return_json_object (city : String) (api_key : Option String)
    (geoResp fResp pResp : HttpResult)
    (hf : ∀ b, fResp = .success b → forecastWF b = true)
    (hp : ∀ b, pResp = .success b → placesWF b = true) :
    isOkObj (get_weather_for_location city geoResp fResp).1 = true ∧
    isOkObj (search_tourist_spots city api_key geoResp pResp).1 = true := by
  constructor
  · rcases hG : geocode_city_open_meteo city geoResp with ⟨res, log⟩
    cases res with
    | error e => simp [get_weather_for_location, hG, isOkObj]
    | ok quad =>
      obtain ⟨lat, lon, nm, co⟩ := quad
      cases fResp with
      | failure msg => simp [get_weather_for_location, hG, isOkObj]
      | success b =>
        have hwf := hf b rfl
        simp only [get_weather_for_location, hG]
        exact weatherBody_wf nm co lat lon b hwf
  · cases api_key with
    | none => exact rfl
    | some key =>
      by_cases hk : key = ""
      · subst hk; exact rfl
      · rcases hG : geocode_city_open_meteo city geoResp with ⟨res, log⟩
        cases res with
        | error e => simp [search_tourist_spots, if_neg hk, hG, isOkObj]
        | ok quad =>
          obtain ⟨lat, lon, nm, co⟩ := quad
          cases pResp with
          | failure msg => simp [search_tourist_spots, if_neg hk, hG, isOkObj]
          | success b =>
            have hwf := hp b rfl
            simp only [search_tourist_spots, if_neg hk, hG]
            exact spotsBody_wf nm co lat lon b hwf

/-- Witness for C1 at concrete well-shaped responses. -/
theorem tools_return_json_object_witness :
    (∀ b, HttpResult.success (Json.obj fOneKvs) = .success b → forecastWF b = true) ∧
    (∀ b, HttpResult.success (Json.arr []) = .success b → placesWF b = true) ∧
    (isOkObj (get_weather_for_location "Rome" (.success geoRome)
        (.success (Json.obj fOneKvs))).1 = true ∧
     isOkObj (search_tourist_spots "Rome" (some "k") (.success geoRome)
        (.success (Json.arr []))).1 = true) :=
  ⟨fun b hb => by cases hb; rfl,
   fun b hb => by cases hb; rfl,
   tools_return_json_object "Rome" (some "k") (.success geoRome)
     (.success (Json.obj fOneKvs)) (.success (Json.arr []))
     (fun b hb => by cases hb; rfl) (fun b hb => by cases hb; rfl)⟩

/-- Claim C2: when the geocoding body has a falsy `results` member (no
matches), `geocode_city_open_meteo` raises the not-found `ValueError`, both
tools catch it into an error record, and the request log shows only the one
geocoding request — the forecast and places endpoints are never contacted
(the conclusion does not depend on `fResp`/`pResp` at all). -/
theorem geocode_no_match_halts (city : String) (gkvs : List (String × Json))
    (fResp pResp : HttpResult) (key : String)
    (hres : pyFalsy (jlookupD gkvs "results" Json.null) = true)
    (hk : key ≠ "") :
    geocode_city_open_meteo city (.success (Json.obj gkvs)) =
      (.error (.valueError ("City not found: " ++ city)),
       [Req.geocoding (geo_params city)]) ∧
    get_weather_for_location city (.success (Json.obj gkvs)) fResp =
      (.ok (.obj [("error", .str ("Failed to geocode city " ++ city ++ ": " ++
          ("City not found: " ++ city)))]),
       [Req.geocoding (geo_params city)]) ∧
    search_tourist_spots city (some key) (.success (Json.obj gkvs)) pResp =
      (.ok (.obj [("error", .str ("Failed to geocode city " ++ city ++ ": " ++
          ("City not found: " ++ city)))]),
       [Req.geocoding (geo_params city)]) := by
  have hgeo : geocode_city_open_meteo city (.success (Json.obj gkvs)) =
      (.error (.valueError ("City not found: " ++ city)),
       [Req.geocoding (geo_params city)]) := by
    simp [geocode_city_open_meteo, pyGetD, hres]
  refine ⟨hgeo, ?_, ?_⟩
  · simp [get_weather_for_location, hgeo, excMsg]
  · simp [search_tourist_spots, if_neg hk, hgeo, excMsg]

/-- Witness for C2 at a concrete empty geocoding result. -/
theorem geocode_no_match_halts_witness :
    pyFalsy (jlookupD [("results", Json.arr [])] "results" Json.null) = true ∧
    "k" ≠ "" ∧
    (geocode_city_open_meteo "Atlantis" (.success (.obj [("results", Json.arr [])])) =
      (.error (.valueError ("City not found: " ++ "Atlantis")),
       [Req.geocoding (geo_params "Atlantis")]) ∧
     get_weather_for_location "Atlantis" (.success (.obj [("results", Json.arr [])]))
        (.failure "down") =
      (.ok (.obj [("error", .str ("Failed to geocode city " ++ "Atlantis" ++ ": " ++
          ("City not found: " ++ "Atlantis")))]),
       [Req.geocoding (geo_params "Atlantis")]) ∧
     search_tourist_spots "Atlantis" (some "k")
        (.success (.obj [("results", Json.arr [])])) (.failure "down") =
      (.ok (.obj [("error", .str ("Failed to geocode city " ++ "Atlantis" ++ ": " ++
          ("City not found: " ++ "Atlantis")))]),
       [Req.geocoding (geo_params "Atlantis")])) :=
  ⟨rfl, by decide,
   geocode_no_match_halts "Atlantis" [("results", Json.arr [])]
     (.failure "down") (.failure "down") "k" rfl (by decide)⟩

/-- Claim C3, counterexample: the tool returns one day entry per date in the
response's `time` array, with no padding to 15: a successful forecast
response carrying a single date yields exactly 1 entry, not 15. -/
theorem forecast_day_count_cex :
    (weatherDays (get_weather_for_location "Rome" (.success geoRome)
        (.success (Json.obj fOneKvs)))).map List.length = some 1 ∧
    (1 : Nat) ≠ 15 :=
  ⟨rfl, by decide⟩

/-- Claim C3 (amended): given a successful geocoding and a successful
well-shaped forecast response with a non-empty `time` array, the tool returns
exactly one day entry per date — `horizonDays = 15` entries exactly when the
provider returns the 15 requested dates — and the entry at index `j` is the
record carrying date `j` and, for each value series, the value at `j` or
`null` past the series end. -/
theorem forecast_day_count_amended (city : String) (geoResp : HttpResult)
    (lat lon nm co : Json) (fkvs dkvs : List (String × Json))
    (ds tm tn pm ps : List Json)
    (hg : (geocode_city_open_meteo city geoResp).1 = .ok (lat, lon, nm, co))
    (hdaily : jlookupD fkvs "daily" (Json.obj []) = Json.obj dkvs)
    (htime : jlookupD dkvs "time" (Json.arr []) = Json.arr ds)
    (htm : jlookupD dkvs "temperature_2m_max" (Json.arr []) = Json.arr tm)
    (htn : jlookupD dkvs "temperature_2m_min" (Json.arr []) = Json.arr tn)
    (hpm : jlookupD dkvs "precipitation_probability_max" (Json.arr []) = Json.arr pm)
    (hps : jlookupD dkvs "precipitation_sum" (Json.arr []) = Json.arr ps)
    (hne : ds ≠ []) :
    weatherDays (get_weather_for_location city geoResp (.success (Json.obj fkvs))) =
      some (buildDaysP tm tn pm ps 0 ds) ∧
    (buildDaysP tm tn pm ps 0 ds).length = ds.length ∧
    ∀ j, j < ds.length →
      (buildDaysP tm tn pm ps 0 ds).getD j Json.null =
        mkDayP tm tn pm ps j (ds.getD j Json.null) := by
  have hS := get_weather_success city geoResp lat lon nm co fkvs dkvs
    ds tm tn pm ps hg hdaily htime htm htn hpm hps hne
  refine ⟨by rw [hS]; rfl, buildDaysP_length tm tn pm ps ds 0, fun j hj => ?_⟩
  have h := buildDaysP_getD tm tn pm ps ds 0 j hj
  simpa using h

/-- Witness for C3 at the one-date fixture. -/
theorem forecast_day_count_amended_witness :
    (geocode_city_open_meteo "Rome" (.success geoRome)).1 =
      .ok (.num 41, .num 12, .str "Rome", .str "Italy") ∧
    jlookupD fOneKvs "daily" (Json.obj []) = Json.obj dOneKvs ∧
    jlookupD dOneKvs "time" (Json.arr []) = Json.arr [.str "2025-06-01"] ∧
    jlookupD dOneKvs "temperature_2m_max" (Json.arr []) = Json.arr [.num 20] ∧
    jlookupD dOneKvs "temperature_2m_min" (Json.arr []) = Json.arr [.num 10] ∧
    jlookupD dOneKvs "precipitation_probability_max" (Json.arr []) = Json.arr [.num 5] ∧
    jlookupD dOneKvs "precipitation_sum" (Json.arr []) = Json.arr [.num 0] ∧
    ([Json.str "2025-06-01"] ≠ []) ∧
    (weatherDays (get_weather_for_location "Rome" (.success geoRome)
        (.success (Json.obj fOneKvs))) =
      some (buildDaysP [.num 20] [.num 10] [.num 5] [.num 0] 0 [.str "2025-06-01"]) ∧
     (buildDaysP [.num 20] [.num 10] [.num 5] [.num 0] 0 [.str "2025-06-01"]).length =
      [Json.str "2025-06-01"].length ∧
     ∀ j, j < [Json.str "2025-06-01"].length →
      (buildDaysP [.num 20] [.num 10] [.num 5] [.num 0] 0 [.str "2025-06-01"]).getD j Json.null =
        mkDayP [.num 20] [.num 10] [.num 5] [.num 0] j
          ([Json.str "2025-06-01"].getD j Json.null)) :=
  ⟨rfl, rfl, rfl, rfl, rfl, rfl, rfl, by simp,
   forecast_day_count_amended "Rome" (.success geoRome)
     (.num 41) (.num 12) (.str "Rome") (.str "Italy") fOneKvs dOneKvs
     [.str "2025-06-01"] [.num 20] [.num 10] [.num 5] [.num 0]
     rfl rfl rfl rfl rfl rfl rfl (by simp)⟩

/-- Claim C4: when a daily value series is shorter than the date array, the
corresponding field of the affected day entry is the explicit unknown
`Json.null` (Python `None`), not a fabricated default — one implication per
series. -/
theorem missing_series_null (city : String) (geoResp : HttpResult)
    (lat lon nm co : Json) (fkvs dkvs : List (String × Json))
    (ds tm tn pm ps : List Json) (j : Nat)
    (hg : (geocode_city_open_meteo city geoResp).1 = .ok (lat, lon, nm, co))
    (hdaily : jlookupD fkvs "daily" (Json.obj []) = Json.obj dkvs)
    (htime : jlookupD dkvs "time" (Json.arr []) = Json.arr ds)
    (htm : jlookupD dkvs "temperature_2m_max" (Json.arr []) = Json.arr tm)
    (htn : jlookupD dkvs "temperature_2m_min" (Json.arr []) = Json.arr tn)
    (hpm : jlookupD dkvs "precipitation_probability_max" (Json.arr []) = Json.arr pm)
    (hps : jlookupD dkvs "precipitation_sum" (Json.arr []) = Json.arr ps)
    (hne : ds ≠ []) (hj : j < ds.length) :
    weatherDays (get_weather_for_location city geoResp (.success (Json.obj fkvs))) =
      some (buildDaysP tm tn pm ps 0 ds) ∧
    (tm.length ≤ j →
      jfield ((buildDaysP tm tn pm ps 0 ds).getD j Json.null) "temp_max_c" =
        some Json.null) ∧
    (tn.length ≤ j →
      jfield ((buildDaysP tm tn pm ps 0 ds).getD j Json.null) "temp_min_c" =
        some Json.null) ∧
    (pm.length ≤ j →
      jfield ((buildDaysP tm tn pm ps 0 ds).getD j Json.null)
        "precipitation_probability_max" = some Json.null) ∧
    (ps.length ≤ j →
      jfield ((buildDaysP tm tn pm ps 0 ds).getD j Json.null)
        "precipitation_sum_mm" = some Json.null) := by
  have hS := get_weather_success city geoResp lat lon nm co fkvs dkvs
    ds tm tn pm ps hg hdaily htime htm htn hpm hps hne
  have hget : (buildDaysP tm tn pm ps 0 ds).getD j Json.null =
      mkDayP tm tn pm ps j (ds.getD j Json.null) := by
    simpa using buildDaysP_getD tm tn pm ps ds 0 j hj
  have hnull : ∀ (xs : List Json), xs.length ≤ j → fieldAt xs j = Json.null :=
    fun xs hx => List.getD_eq_default xs Json.null hx
  exact ⟨by rw [hS]; rfl,
    fun h => by rw [hget]; exact congrArg some (hnull tm h),
    fun h => by rw [hget]; exact congrArg some (hnull tn h),
    fun h => by rw [hget]; exact congrArg some (hnull pm h),
    fun h => by rw [hget]; exact congrArg some (hnull ps h)⟩

/-- Witness for C4 at the two-date fixture with short series (index 1 is past
the end of the `temperature_2m_max`, `temperature_2m_min` and
`precipitation_sum` series). -/
theorem missing_series_null_witness :
    (geocode_city_open_meteo "Rome" (.success geoRome)).1 =
      .ok (.num 41, .num 12, .str "Rome", .str "Italy") ∧
    jlookupD fTwoKvs "daily" (Json.obj []) = Json.obj dTwoKvs ∧
    jlookupD dTwoKvs "time" (Json.arr []) =
      Json.arr [.str "2025-06-01", .str "2025-06-02"] ∧
    jlookupD dTwoKvs "temperature_2m_max" (Json.arr []) = Json.arr [.num 20] ∧
    jlookupD dTwoKvs "temperature_2m_min" (Json.arr []) = Json.arr [] ∧
    jlookupD dTwoKvs "precipitation_probability_max" (Json.arr []) =
      Json.arr [.num 5, .num 7] ∧
    jlookupD dTwoKvs "precipitation_sum" (Json.arr []) = Json.arr [] ∧
    ([Json.str "2025-06-01", Json.str "2025-06-02"] ≠ []) ∧
    1 < [Json.str "2025-06-01", Json.str "2025-06-02"].length ∧
    (weatherDays (get_weather_for_location "Rome" (.success geoRome)
        (.success (Json.obj fTwoKvs))) =
      some (buildDaysP [.num 20] [] [.num 5, .num 7] [] 0
        [.str "2025-06-01", .str "2025-06-02"]) ∧
     ((List.length [Json.num 20] ≤ 1) →
      jfield ((buildDaysP [.num 20] [] [.num 5, .num 7] [] 0
          [.str "2025-06-01", .str "2025-06-02"]).getD 1 Json.null) "temp_max_c" =
        some Json.null) ∧
     ((List.length ([] : List Json) ≤ 1) →
      jfield ((buildDaysP [.num 20] [] [.num 5, .num 7] [] 0
          [.str "2025-06-01", .str "2025-06-02"]).getD 1 Json.null) "temp_min_c" =
        some Json.null) ∧
     ((List.length [Json.num 5, Json.num 7] ≤ 1) →
      jfield ((buildDaysP [.num 20] [] [.num 5, .num 7] [] 0
          [.str "2025-06-01", .str "2025-06-02"]).getD 1 Json.null)
        "precipitation_probability_max" = some Json.null) ∧
     ((List.length ([] : List Json) ≤ 1) →
      jfield ((buildDaysP [.num 20] [] [.num 5, .num 7] [] 0
          [.str "2025-06-01", .str "2025-06-02"]).getD 1 Json.null)
        "precipitation_sum_mm" = some Json.null)) :=
  ⟨rfl, rfl, rfl, rfl, rfl, rfl, rfl, by simp, by simp,
   missing_series_null "Rome" (.success geoRome)
     (.num 41) (.num 12) (.str "Rome") (.str "Italy") fTwoKvs dTwoKvs
     [.str "2025-06-01", .str "2025-06-02"] [.num 20] [] [.num 5, .num 7] [] 1
     rfl rfl rfl rfl rfl rfl rfl (by simp) (by simp)⟩

/-- Claim C5: a well-typed forecast response with an empty or absent
`daily.time` array makes the tool return the explicit no-data error record —
the error string together with the resolved city and country — instead of a
day list or a raised fault. -/
theorem no_daily_data_record (city : String) (geoResp : HttpResult)
    (lat lon nm co : Json) (fkvs dkvs : List (String × Json))
    (hg : (geocode_city_open_meteo city geoResp).1 = .ok (lat, lon, nm, co))
    (hdaily : jlookupD fkvs "daily" (Json.obj []) = Json.obj dkvs)
    (htime : jlookupD dkvs "time" (Json.arr []) = Json.arr []) :
    get_weather_for_location city geoResp (.success (Json.obj fkvs)) =
      (.ok (.obj [("error", .str "No daily forecast data returned."),
                  ("city", nm), ("country", co)]),
       [Req.geocoding (geo_params city), Req.forecast (forecast_params lat lon)]) := by
  have hlog : (geocode_city_open_meteo city geoResp).2 =
      [Req.geocoding (geo_params city)] := rfl
  have hpair : geocode_city_open_meteo city geoResp =
      (.ok (lat, lon, nm, co), [Req.geocoding (geo_params city)]) := by
    rw [← hg, ← hlog]
  simp only [get_weather_for_location, hpair, weatherBody, pyGetD, hdaily, htime]
  simp [pyFalsy]

/-- Witness for C5 at a forecast body whose daily dict is empty (`time`
absent, defaulting to the empty array). -/
theorem no_daily_data_record_witness :
    (geocode_city_open_meteo "Rome" (.success geoRome)).1 =
      .ok (.num 41, .num 12, .str "Rome", .str "Italy") ∧
    jlookupD [("daily", Json.obj [])] "daily" (Json.obj []) = Json.obj [] ∧
    jlookupD [] "time" (Json.arr []) = Json.arr [] ∧
    get_weather_for_location "Rome" (.success geoRome)
        (.success (.obj [("daily", Json.obj [])])) =
      (.ok (.obj [("error", .str "No daily forecast data returned."),
                  ("city", .str "Rome"), ("country", .str "Italy")]),
       [Req.geocoding (geo_params "Rome"),
        Req.forecast (forecast_params (.num 41) (.num 12))]) :=
  ⟨rfl, rfl, rfl,
   no_daily_data_record "Rome" (.success geoRome)
     (.num 41) (.num 12) (.str "Rome") (.str "Italy")
     [("daily", Json.obj [])] [] rfl rfl rfl⟩

/-- Claim C6, counterexample: with the credential absent the tool returns the
record `{"error": ...}` only — it contains no `attractions` member at all, so
it does not return an empty attraction list. -/
theorem missing_key_no_list_cex :
    (search_tourist_spots "Rome" none (.failure "down") (.failure "down")).1 =
      .ok missingKeyRecord ∧
    attractionsList (search_tourist_spots "Rome" none
      (.failure "down") (.failure "down")) = none :=
  ⟨rfl, rfl⟩

/-- Claim C6 (amended): whenever the credential is absent (unset or empty),
`search_tourist_spots` returns exactly the missing-credential error record,
which carries the error string and no attractions field — so it never
returns a partial or malformed attraction list. -/
theorem missing_key_error_record (city : String) (api_key : Option String)
    (geoResp placesResp : HttpResult)
    (hk : api_key = none ∨ api_key = some "") :
    search_tourist_spots city api_key geoResp placesResp =
      (.ok missingKeyRecord, []) ∧
    errorField (search_tourist_spots city api_key geoResp placesResp) =
      some (.str "OPEN_TRIPMAP_API_KEY is not set in environment.") ∧
    attractionsList (search_tourist_spots city api_key geoResp placesResp) =
      none := by
  rcases hk with rfl | rfl <;> exact ⟨rfl, rfl, rfl⟩

/-- Witness for C6 with the credential unset. -/
theorem missing_key_error_record_witness :
    ((none : Option String) = none ∨ (none : Option String) = some "") ∧
    (search_tourist_spots "Rome" none (.failure "down") (.failure "down") =
      (.ok missingKeyRecord, []) ∧
     errorField (search_tourist_spots "Rome" none (.failure "down") (.failure "down")) =
      some (.str "OPEN_TRIPMAP_API_KEY is not set in environment.") ∧
     attractionsList (search_tourist_spots "Rome" none
        (.failure "down") (.failure "down")) = none) :=
  ⟨Or.inl rfl,
   missing_key_error_record "Rome" none (.failure "down") (.failure "down")
     (Or.inl rfl)⟩

/-- Claim C7: a successful points-of-interest response with zero place
records yields a success record with an empty `attractions` array and no
`error` member. -/
theorem empty_places_empty_attractions (city : String) (geoResp : HttpResult)
    (key : String) (lat lon nm co : Json)
    (hk : key ≠ "")
    (hg : (geocode_city_open_meteo city geoResp).1 = .ok (lat, lon, nm, co)) :
    search_tourist_spots city (some key) geoResp (.success (Json.arr [])) =
      (.ok (.obj [("city", nm), ("country", co), ("latitude", lat),
                  ("longitude", lon), ("attractions", .arr []),
                  ("notes", .str spotsNotes)]),
       [Req.geocoding (geo_params city), Req.places (places_params lat lon key)]) ∧
    attractionsList (search_tourist_spots city (some key) geoResp
      (.success (Json.arr []))) = some [] ∧
    errorField (search_tourist_spots city (some key) geoResp
      (.success (Json.arr []))) = none := by
  have h := spots_success city geoResp key lat lon nm co [] hk hg rfl
  refine ⟨by simpa using h, ?_, ?_⟩ <;> rw [h] <;> rfl

/-- Witness for C7 at a concrete empty places response. -/
theorem empty_places_empty_attractions_witness :
    "k" ≠ "" ∧
    (geocode_city_open_meteo "Rome" (.success geoRome)).1 =
      .ok (.num 41, .num 12, .str "Rome", .str "Italy") ∧
    (search_tourist_spots "Rome" (some "k") (.success geoRome)
        (.success (Json.arr [])) =
      (.ok (.obj [("city", .str "Rome"), ("country", .str "Italy"),
                  ("latitude", .num 41), ("longitude", .num 12),
                  ("attractions", .arr []), ("notes", .str spotsNotes)]),
       [Req.geocoding (geo_params "Rome"),
        Req.places (places_params (.num 41) (.num 12) "k")]) ∧
     attractionsList (search_tourist_spots "Rome" (some "k") (.success geoRome)
       (.success (Json.arr []))) = some [] ∧
     errorField (search_tourist_spots "Rome" (some "k") (.success geoRome)
       (.success (Json.arr []))) = none) :=
  ⟨by decide, rfl,
   empty_places_empty_attractions "Rome" (.success geoRome) "k"
     (.num 41) (.num 12) (.str "Rome") (.str "Italy") (by decide) rfl⟩

/-- Claim C8, counterexample: the code performs no client-side truncation —
`limit=20` is only a request parameter.  When the provider returns 21 place
records, the returned attractions list has 21 entries, more than 20. -/
theorem places_truncation_cex :
    (attractionsList (search_tourist_spots "Rome" (some "k") (.success geoRome)
        (.success (.arr (List.replicate 21 (Json.obj [])))))).map List.length =
      some 21 ∧
    ¬ (21 ≤ 20) :=
  ⟨rfl, by decide⟩

/-- Claim C8 (amended): the places request carries the parameter `limit=20`,
delegating truncation to the provider; the tool itself returns exactly one
attraction record per place record of the response, so the list has at most
20 entries only when the provider honours the limit. -/
theorem places_limit_no_truncation (city : String) (geoResp : HttpResult)
    (key : String) (lat lon nm co : Json) (items : List Json)
    (hk : key ≠ "")
    (hg : (geocode_city_open_meteo city geoResp).1 = .ok (lat, lon, nm, co))
    (hall : items.all isObj = true) :
    jlookup (places_params lat lon key) "limit" = some (.num 20) ∧
    search_tourist_spots city (some key) geoResp (.success (Json.arr items)) =
      (.ok (.obj [("city", nm), ("country", co), ("latitude", lat),
                  ("longitude", lon),
                  ("attractions", .arr (items.map attractionOf)),
                  ("notes", .str spotsNotes)]),
       [Req.geocoding (geo_params city), Req.places (places_params lat lon key)]) ∧
    attractionsList (search_tourist_spots city (some key) geoResp
      (.success (Json.arr items))) = some (items.map attractionOf) ∧
    (items.map attractionOf).length = items.length := by
  have h := spots_success city geoResp key lat lon nm co items hk hg hall
  exact ⟨rfl, h, by rw [h]; rfl, List.length_map items attractionOf⟩

/-- Witness for C8 at a concrete three-record response. -/
theorem places_limit_no_truncation_witness :
    "k" ≠ "" ∧
    (geocode_city_open_meteo "Rome" (.success geoRome)).1 =
      .ok (.num 41, .num 12, .str "Rome", .str "Italy") ∧
    ([Json.obj [], Json.obj [], Json.obj []].all isObj = true) ∧
    (jlookup (places_params (.num 41) (.num 12) "k") "limit" = some (.num 20) ∧
     search_tourist_spots "Rome" (some "k") (.success geoRome)
        (.success (Json.arr [Json.obj [], Json.obj [], Json.obj []])) =
      (.ok (.obj [("city", .str "Rome"), ("country", .str "Italy"),
                  ("latitude", .num 41), ("longitude", .num 12),
                  ("attractions", .arr ([Json.obj [], Json.obj [],
                    Json.obj []].map attractionOf)),
                  ("notes", .str spotsNotes)]),
       [Req.geocoding (geo_params "Rome"),
        Req.places (places_params (.num 41) (.num 12) "k")]) ∧
     attractionsList (search_tourist_spots "Rome" (some "k") (.success geoRome)
       (.success (Json.arr [Json.obj [], Json.obj [], Json.obj []]))) =
      some ([Json.obj [], Json.obj [], Json.obj []].map attractionOf) ∧
     ([Json.obj [], Json.obj [], Json.obj []].map attractionOf).length =
      [Json.obj [], Json.obj [], Json.obj []].length) :=
  ⟨by decide, rfl, rfl,
   places_limit_no_truncation "Rome" (.success geoRome) "k"
     (.num 41) (.num 12) (.str "Rome") (.str "Italy")
     [Json.obj [], Json.obj [], Json.obj []] (by decide) rfl rfl⟩

/-- Claim C9: `geocode_city_open_meteo` is deterministic — with the same city
name and a stable provider (structurally equal responses), two invocations
return structurally identical results — and each invocation performs its own
single geocoding network call. -/
theorem geocode_deterministic (city : String) (r₁ r₂ : HttpResult)
    (h : r₁ = r₂) :
    geocode_city_open_meteo city r₁ = geocode_city_open_meteo city r₂ ∧
    (geocode_city_open_meteo city r₁).2 = [Req.geocoding (geo_params city)] ∧
    (geocode_city_open_meteo city r₂).2 = [Req.geocoding (geo_params city)] := by
  subst h
  exact ⟨rfl, rfl, rfl⟩

/-- Witness for C9 at a concrete stable response. -/
theorem geocode_deterministic_witness :
    HttpResult.success geoRome = HttpResult.success geoRome ∧
    (geocode_city_open_meteo "Rome" (.success geoRome) =
      geocode_city_open_meteo "Rome" (.success geoRome) ∧
     (geocode_city_open_meteo "Rome" (.success geoRome)).2 =
      [Req.geocoding (geo_params "Rome")] ∧
     (geocode_city_open_meteo "Rome" (.success geoRome)).2 =
      [Req.geocoding (geo_params "Rome")]) :=
  ⟨rfl, geocode_deterministic "Rome" (.success geoRome) (.success geoRome) rfl⟩

/-- Claim C10: `search_tourist_spots` checks the credential before anything
else: with the key unset it returns the missing-credential record and its
request log is empty — no network request at all, not even geocoding,
whatever the providers would have answered. -/
theorem missing_key_no_requests (city : String) (geoResp placesResp : HttpResult) :
    search_tourist_spots city none geoResp placesResp =
      (.ok missingKeyRecord, []) := rfl

end BasicAgent
